import Mathlib

/-!
Verification of the Telegram WebApp auth bridge
(`src/webapp/static/js/telegram_auth.js`).

The script is an immediately-invoked function that

1. probes for `window.Telegram` and `Telegram.WebApp` (warns and returns
   if either is missing),
2. calls `tg.ready()`,
3. warns and returns if `tg.initData` is falsy or has length 0,
4. issues one `fetch` POST to `/api/v1/auth/telegram-webapp` with the
   JSON body `\x7b"init_data": tg.initData\x7d`, JSON content type and
   `credentials: "include"`,
5. on a non-2xx response reads the body as text and throws an error
   carrying it; on a 2xx response parses the body as JSON,
6. logs the parsed value on success and logs any failure in a trailing
   catch handler.

We embed the script as a pure function from an environment (bridge
presence, `initData` value, outcome of the single fetch, the platform's
JSON parse primitive) to a trace of observable events.
-/

/-- A parsed JSON value, as produced by the platform's `JSON.parse`. -/
inductive JsonValue where
  | null : JsonValue
  | bool (b : Bool) : JsonValue
  | num (n : Int) : JsonValue
  | str (s : String) : JsonValue
  | arr (xs : List JsonValue) : JsonValue
  | obj (fields : List (String × JsonValue)) : JsonValue

/-- Observable events of one run of the script.  The constructors cover
every effect the hosting language could perform that the specification
talks about; the embedding of the source emits only `warn`, `ready`,
`request`, `logSuccess`, `logError` (and `uncaughtError` on an uncaught
exception, which we prove unreachable). -/
inductive Event where
  | warn (msg : String) : Event
  | ready : Event
  | request (url method contentType credentials body : String) : Event
  | logSuccess (data : JsonValue) : Event
  | logError (msg : String) : Event
  | uncaughtError (msg : String) : Event
  | domMutation : Event
  | bridgeWrite (field : String) : Event
  | cookieRead (name : String) : Event
  | cookieWrite (name : String) : Event

/-- The host bridge object `Telegram.WebApp`: its `initData` field may be
absent/undefined (`none`) or any string. -/
structure Bridge where
  initData : Option String
deriving DecidableEq, Repr

/-- What the single `fetch` resolves to: a network-level rejection, or an
HTTP response with a status and a body (read as text by `resp.text()`). -/
inductive FetchOutcome where
  | networkError (msg : String) : FetchOutcome
  | response (status : Nat) (bodyText : String) : FetchOutcome
deriving DecidableEq, Repr

/-- The ambient environment of one page load.
`telegram = none` models `window.Telegram` absent;
`telegram = some none` models `window.Telegram` present but
`Telegram.WebApp` absent; `telegram = some (some tg)` models the bridge
present.  `jsonParse` is the platform's `JSON.parse` primitive used by
`resp.json()`. -/
structure Env where
  telegram : Option (Option Bridge)
  fetchOutcome : FetchOutcome
  jsonParse : String → Except String JsonValue

/-- `Response.ok`: status in the inclusive range 200–299. -/
def respOk (status : Nat) : Bool :=
  200 ≤ status && status ≤ 299

/-- One hex digit. -/
def hexDigit (n : Nat) : Char :=
  if n < 10 then Char.ofNat (48 + n) else Char.ofNat (87 + (n % 16))

/-- Four-digit lowercase hex, as in JSON `\u00XX` escapes. -/
def hex4 (n : Nat) : String :=
  String.mk [hexDigit (n / 4096 % 16), hexDigit (n / 256 % 16),
             hexDigit (n / 16 % 16), hexDigit (n % 16)]

/-- `JSON.stringify` escaping of a single character inside a string. -/
def jsonEscapeChar (c : Char) : String :=
  if c = '"' then "\\\""
  else if c = '\\' then "\\\\"
  else if c = '\x08' then "\\b"
  else if c = '\x09' then "\\t"
  else if c = '\x0a' then "\\n"
  else if c = '\x0c' then "\\f"
  else if c = '\x0d' then "\\r"
  else if c.toNat < 32 then "\\u" ++ hex4 c.toNat
  else String.singleton c

/-- `JSON.stringify` of a string value. -/
def jsonEncodeString (s : String) : String :=
  "\"" ++ String.join (s.data.map jsonEscapeChar) ++ "\""

/-- `JSON.stringify(\x7b init_data: x \x7d)`: the body of the auth request. -/
def jsonEncodeAuthRequest (x : String) : String :=
  "\x7b\"init_data\":" ++ jsonEncodeString x ++ "\x7d"

/-- JavaScript truthiness test `!tg.initData` on a possibly-undefined
string: `undefined` and `""` are falsy. -/
def jsFalsyStr : Option String → Bool
  | none => true
  | some s => s == ""

/-- The property access `tg.initData.length`: throws a TypeError when
`initData` is undefined. -/
def jsLengthAccess : Option String → Except String Nat
  | none => Except.error "TypeError: Cannot read properties of undefined"
  | some s => Except.ok s.length

/-- Evaluation of the guard expression
`!tg.initData || tg.initData.length === 0` under JavaScript semantics:
`||` short-circuits, so `.length` is only accessed when `initData` is
truthy. -/
def evalInitDataGuard (v : Option String) : Except String Bool :=
  if jsFalsyStr v then Except.ok true
  else (jsLengthAccess v).map (fun n => n == 0)

/-- The two `.then` callbacks and the `.catch` handler of the fetch
chain: non-2xx throws an error carrying the body text; 2xx parses the
body as JSON; the catch handler logs any failure. -/
def handleOutcome (jsonParse : String → Except String JsonValue) :
    FetchOutcome → List Event
  | FetchOutcome.networkError msg => [Event.logError msg]
  | FetchOutcome.response status body =>
    if respOk status then
      match jsonParse body with
      | Except.ok v => [Event.logSuccess v]
      | Except.error e => [Event.logError e]
    else
      [Event.logError body]

/-- The whole IIFE of `telegram_auth.js`, as a trace of events. -/
def runAuthBridge (env : Env) : List Event :=
  match env.telegram with
  | none => [Event.warn "Telegram WebApp API not found"]
  | some none => [Event.warn "Telegram WebApp API not found"]
  | some (some tg) =>
    Event.ready ::
    match evalInitDataGuard tg.initData with
    | Except.error e => [Event.uncaughtError e]
    | Except.ok true => [Event.warn "No initData from Telegram"]
    | Except.ok false =>
      Event.request "/api/v1/auth/telegram-webapp" "POST" "application/json"
          "include" (jsonEncodeAuthRequest (tg.initData.getD "")) ::
      handleOutcome env.jsonParse env.fetchOutcome

/-- Two sequential invocations of the script (two page loads) in the same
environment: the script keeps no state, so the combined trace is the
concatenation of two independent runs. -/
def runTwice (env : Env) : List Event :=
  runAuthBridge env ++ runAuthBridge env

/-- Whether an event is a network request. -/
def Event.isRequest : Event → Bool
  | Event.request _ _ _ _ _ => true
  | _ => false

/-- Number of network requests in a trace. -/
def requestCount (evs : List Event) : Nat :=
  (evs.filter Event.isRequest).length

/-- Whether an event is one of the side effects the component is allowed:
console output, the read-only readiness signal, or a network request.
Uncaught exceptions, DOM mutation, writes to the bridge object and direct
cookie access are excluded. -/
def allowedEffect : Event → Bool
  | Event.warn _ => true
  | Event.ready => true
  | Event.request _ _ _ _ _ => true
  | Event.logSuccess _ => true
  | Event.logError _ => true
  | Event.uncaughtError _ => false
  | Event.domMutation => false
  | Event.bridgeWrite _ => false
  | Event.cookieRead _ => false
  | Event.cookieWrite _ => false

/-- Whether an event is console output (`console.warn`, `console.log`,
`console.error`). -/
def Event.isConsoleLog : Event → Bool
  | Event.warn _ => true
  | Event.logSuccess _ => true
  | Event.logError _ => true
  | _ => false

/-- A concrete `JSON.parse` double for the tests below: parses the body
`\x7b"ok":true\x7d` and rejects everything else. -/
def parseOkTrue : String → Except String JsonValue := fun s =>
  if s = "\x7b\"ok\":true\x7d" then
    Except.ok (JsonValue.obj [("ok", JsonValue.bool true)])
  else Except.error ("Unexpected token in JSON: " ++ s)

/-- Bridge present, `initData = "X"`, backend answers 200 with JSON body. -/
def envOk : Env :=
  ⟨some (some ⟨some "X"⟩), FetchOutcome.response 200 "\x7b\"ok\":true\x7d", parseOkTrue⟩

/-- `window.Telegram` absent. -/
def envNoBridge : Env := ⟨none, FetchOutcome.response 200 "", parseOkTrue⟩

/-- `window.Telegram` present but `Telegram.WebApp` absent. -/
def envNoWebApp : Env := ⟨some none, FetchOutcome.response 200 "", parseOkTrue⟩

/-- Bridge present with an empty `initData` string. -/
def envEmptyInit : Env :=
  ⟨some (some ⟨some ""⟩), FetchOutcome.response 200 "", parseOkTrue⟩

/-- Bridge present with `initData` undefined. -/
def envUndefInit : Env :=
  ⟨some (some ⟨none⟩), FetchOutcome.response 200 "", parseOkTrue⟩

/-- Bridge present, backend answers 401 with body `invalid signature`. -/
def envUnauthorized : Env :=
  ⟨some (some ⟨some "X"⟩), FetchOutcome.response 401 "invalid signature", parseOkTrue⟩

/-- Bridge present, backend answers 200 with a body that is not JSON. -/
def envBadJson : Env :=
  ⟨some (some ⟨some "X"⟩), FetchOutcome.response 200 "nonsense", parseOkTrue⟩

/-- A string has length 0 exactly when it is empty. -/
theorem string_length_eq_zero_iff (d : String) : d.length = 0 ↔ d = "" := by
  constructor
  · intro h0
    apply String.ext
    exact List.length_eq_zero.mp h0
  · intro h; subst h; rfl

/-- `requestCount` over a cons. -/
theorem requestCount_cons (e : Event) (l : List Event) :
    requestCount (e :: l) =
      (if e.isRequest then 1 else 0) + requestCount l := by
  simp only [requestCount, List.filter_cons]
  split <;> simp [Nat.add_comm]

/-- `requestCount` distributes over concatenation of traces. -/
theorem requestCount_append (a b : List Event) :
    requestCount (a ++ b) = requestCount a + requestCount b := by
  simp [requestCount, List.filter_append]

/-- The fetch-result chain always settles to a single console-log event. -/
theorem handleOutcome_single (p : String → Except String JsonValue)
    (o : FetchOutcome) :
    ∃ e, handleOutcome p o = [e] ∧ e.isConsoleLog = true := by
  cases o with
  | networkError m => exact ⟨_, rfl, rfl⟩
  | response s b =>
    simp only [handleOutcome]
    split
    · cases p b with
      | ok v => exact ⟨_, rfl, rfl⟩
      | error e => exact ⟨_, rfl, rfl⟩
    · exact ⟨_, rfl, rfl⟩

/-- Console output is not a network request. -/
theorem consoleLog_not_request (e : Event) (h : e.isConsoleLog = true) :
    e.isRequest = false := by
  cases e <;> simp_all [Event.isConsoleLog, Event.isRequest]

/-- Console output is an allowed side effect. -/
theorem consoleLog_allowed (e : Event) (h : e.isConsoleLog = true) :
    allowedEffect e = true := by
  cases e <;> simp_all [Event.isConsoleLog, allowedEffect]

/-- Console output is never an uncaught exception. -/
theorem consoleLog_ne_uncaught (e : Event) (h : e.isConsoleLog = true)
    (m : String) : e ≠ Event.uncaughtError m := by
  cases e <;> simp_all [Event.isConsoleLog]

/-- The guard expression `!tg.initData || tg.initData.length === 0` never
throws: thanks to short-circuiting, `.length` is read only on an actual
string. -/
theorem guard_never_errors (v : Option String) :
    ∃ b, evalInitDataGuard v = Except.ok b := by
  cases v with
  | none => exact ⟨true, rfl⟩
  | some s =>
    by_cases hs : s == ""
    · exact ⟨true, by simp [evalInitDataGuard, jsFalsyStr, hs]⟩
    · exact ⟨s.length == 0,
        by simp [evalInitDataGuard, jsFalsyStr, hs, jsLengthAccess, Except.map]⟩

/-- The guard passes (evaluates to `false`) exactly when `initData` is a
present, non-empty string. -/
theorem guard_false_iff (v : Option String) :
    evalInitDataGuard v = Except.ok false ↔ ∃ d, v = some d ∧ d ≠ "" := by
  cases v with
  | none => simp [evalInitDataGuard, jsFalsyStr]
  | some s =>
    simp only [evalInitDataGuard, jsFalsyStr, jsLengthAccess]
    by_cases hs : s = ""
    · subst hs; simp
    · simp only [beq_eq_false_iff_ne, ne_eq, hs, not_false_eq_true, beq_iff_eq,
        if_neg, Except.map]
      constructor
      · intro _
        exact ⟨s, rfl, hs⟩
      · intro _
        have : s.length ≠ 0 := fun h0 => hs ((string_length_eq_zero_iff s).mp h0)
        simp [this]

/-- The fetch-result chain itself performs no network request. -/
theorem requestCount_handleOutcome (p : String → Except String JsonValue)
    (o : FetchOutcome) : requestCount (handleOutcome p o) = 0 := by
  obtain ⟨e, he, hlog⟩ := handleOutcome_single p o
  rw [he, requestCount_cons, consoleLog_not_request e hlog]
  rfl

/-- With the bridge present and a non-empty `initData`, the run is `ready`,
then the single POST, then the settlement of the fetch. -/
theorem runAuthBridge_found (env : Env) (tg : Bridge) (d : String)
    (h1 : env.telegram = some (some tg)) (h2 : tg.initData = some d)
    (h3 : d ≠ "") :
    runAuthBridge env = Event.ready ::
      Event.request "/api/v1/auth/telegram-webapp" "POST" "application/json"
        "include" (jsonEncodeAuthRequest d) ::
      handleOutcome env.jsonParse env.fetchOutcome := by
  have hguard : evalInitDataGuard (some d) = Except.ok false :=
    (guard_false_iff (some d)).mpr ⟨d, rfl, h3⟩
  simp [runAuthBridge, h1, h2, hguard]

/-- With the bridge present and a non-empty `initData`, exactly one request
is issued. -/
theorem requestCount_found (env : Env) (tg : Bridge) (d : String)
    (h1 : env.telegram = some (some tg)) (h2 : tg.initData = some d)
    (h3 : d ≠ "") : requestCount (runAuthBridge env) = 1 := by
  rw [runAuthBridge_found env tg d h1 h2 h3, requestCount_cons, requestCount_cons,
    requestCount_handleOutcome]
  simp [Event.isRequest]

/-- Every run has one of three shapes: missing-bridge warning, `ready` plus
empty-payload warning, or `ready`, the POST, and one console log. -/
theorem run_shape (env : Env) :
    runAuthBridge env = [Event.warn "Telegram WebApp API not found"] ∨
    runAuthBridge env = [Event.ready, Event.warn "No initData from Telegram"] ∨
    ∃ d e, (∃ tg, env.telegram = some (some tg) ∧ tg.initData = some d ∧ d ≠ "") ∧
      runAuthBridge env = [Event.ready,
        Event.request "/api/v1/auth/telegram-webapp" "POST" "application/json"
          "include" (jsonEncodeAuthRequest d), e] ∧
      Event.isConsoleLog e = true := by
  cases htel : env.telegram with
  | none => left; simp [runAuthBridge, htel]
  | some w =>
    cases w with
    | none => left; simp [runAuthBridge, htel]
    | some tg =>
      obtain ⟨b, hb⟩ := guard_never_errors tg.initData
      cases b with
      | true =>
        right; left
        simp [runAuthBridge, htel, hb]
      | false =>
        obtain ⟨d, hd, hne⟩ := (guard_false_iff tg.initData).mp hb
        rw [hd] at hb
        obtain ⟨e, he, hlog⟩ := handleOutcome_single env.jsonParse env.fetchOutcome
        right; right
        refine ⟨d, e, ⟨tg, rfl, hd, hne⟩, ?_, hlog⟩
        simp [runAuthBridge, htel, hd, hb, he]

/-- Claim C1: with the bridge present and a non-empty `initData` string X,
the component issues exactly one HTTP POST, to the fixed relative endpoint
`/api/v1/auth/telegram-webapp`, with JSON content type, with credentials
included, and with body the JSON encoding of `\x7b init_data: X \x7d`. -/
theorem c1_single_post_request (env : Env) (tg : Bridge) (d : String)
    (h1 : env.telegram = some (some tg)) (h2 : tg.initData = some d)
    (h3 : d ≠ "") :
    requestCount (runAuthBridge env) = 1 ∧
    Event.request "/api/v1/auth/telegram-webapp" "POST" "application/json"
      "include" (jsonEncodeAuthRequest d) ∈ runAuthBridge env := by
  refine ⟨requestCount_found env tg d h1 h2 h3, ?_⟩
  rw [runAuthBridge_found env tg d h1 h2 h3]
  exact List.mem_cons_of_mem _ (List.mem_cons_self _ _)

/-- Witness for C1 at `initData = "X"`. -/
theorem c1_witness :
    requestCount (runAuthBridge envOk) = 1 ∧
    Event.request "/api/v1/auth/telegram-webapp" "POST" "application/json"
      "include" (jsonEncodeAuthRequest "X") ∈ runAuthBridge envOk :=
  c1_single_post_request envOk ⟨some "X"⟩ "X" rfl rfl (by decide)

/-- Claim C2: when the host bridge object is absent (no `window.Telegram`,
or no `Telegram.WebApp` on it), the component logs a warning and terminates
without issuing any network request. -/
theorem c2_no_bridge_no_request (env : Env)
    (h : env.telegram = none ∨ env.telegram = some none) :
    runAuthBridge env = [Event.warn "Telegram WebApp API not found"] ∧
    requestCount (runAuthBridge env) = 0 := by
  have ht : runAuthBridge env = [Event.warn "Telegram WebApp API not found"] := by
    rcases h with h | h <;> simp [runAuthBridge, h]
  exact ⟨ht, by rw [ht]; rfl⟩

/-- Witness for C2 with `window.Telegram` absent. -/
theorem c2_witness :
    runAuthBridge envNoBridge = [Event.warn "Telegram WebApp API not found"] ∧
    requestCount (runAuthBridge envNoBridge) = 0 :=
  c2_no_bridge_no_request envNoBridge (Or.inl rfl)

/-- Claim C3: when the bridge is present but `initData` is the empty
string, the component logs a warning and terminates without issuing any
network request. -/
theorem c3_empty_initdata_no_request (env : Env) (tg : Bridge)
    (h1 : env.telegram = some (some tg)) (h2 : tg.initData = some "") :
    runAuthBridge env = [Event.ready, Event.warn "No initData from Telegram"] ∧
    requestCount (runAuthBridge env) = 0 := by
  have ht : runAuthBridge env =
      [Event.ready, Event.warn "No initData from Telegram"] := by
    simp [runAuthBridge, h1, h2, evalInitDataGuard, jsFalsyStr]
  exact ⟨ht, by rw [ht]; rfl⟩

/-- Witness for C3 at `initData = ""`. -/
theorem c3_witness :
    runAuthBridge envEmptyInit =
      [Event.ready, Event.warn "No initData from Telegram"] ∧
    requestCount (runAuthBridge envEmptyInit) = 0 :=
  c3_empty_initdata_no_request envEmptyInit ⟨some ""⟩ rfl rfl

/-- Claim C4: on a non-2xx response the component reads the body as text,
raises a failure carrying that text, and the top-level catch logs it; the
full trace shows no retry and no further request (request count stays 1). -/
theorem c4_non2xx_logs_body_text (env : Env) (tg : Bridge) (d : String)
    (status : Nat) (body : String)
    (h1 : env.telegram = some (some tg)) (h2 : tg.initData = some d)
    (h3 : d ≠ "") (h4 : env.fetchOutcome = FetchOutcome.response status body)
    (h5 : respOk status = false) :
    runAuthBridge env = [Event.ready,
      Event.request "/api/v1/auth/telegram-webapp" "POST" "application/json"
        "include" (jsonEncodeAuthRequest d),
      Event.logError body] ∧
    requestCount (runAuthBridge env) = 1 := by
  have ht := runAuthBridge_found env tg d h1 h2 h3
  rw [h4] at ht
  simp only [handleOutcome, h5, Bool.false_eq_true, if_false] at ht
  exact ⟨ht, requestCount_found env tg d h1 h2 h3⟩

/-- Witness for C4 at a 401 response with body `invalid signature`. -/
theorem c4_witness :
    runAuthBridge envUnauthorized = [Event.ready,
      Event.request "/api/v1/auth/telegram-webapp" "POST" "application/json"
        "include" (jsonEncodeAuthRequest "X"),
      Event.logError "invalid signature"] ∧
    requestCount (runAuthBridge envUnauthorized) = 1 :=
  c4_non2xx_logs_body_text envUnauthorized ⟨some "X"⟩ "X" 401 "invalid signature"
    rfl rfl (by decide) rfl (by decide)

/-- Claim C5: on a 2xx response the component parses the body as JSON and
logs the parsed value as the success payload, issuing no further request
(request count stays 1). -/
theorem c5_2xx_logs_parsed_json (env : Env) (tg : Bridge) (d : String)
    (status : Nat) (body : String) (v : JsonValue)
    (h1 : env.telegram = some (some tg)) (h2 : tg.initData = some d)
    (h3 : d ≠ "") (h4 : env.fetchOutcome = FetchOutcome.response status body)
    (h5 : respOk status = true) (h6 : env.jsonParse body = Except.ok v) :
    runAuthBridge env = [Event.ready,
      Event.request "/api/v1/auth/telegram-webapp" "POST" "application/json"
        "include" (jsonEncodeAuthRequest d),
      Event.logSuccess v] ∧
    requestCount (runAuthBridge env) = 1 := by
  have ht := runAuthBridge_found env tg d h1 h2 h3
  rw [h4] at ht
  simp only [handleOutcome, h5, if_true, h6] at ht
  exact ⟨ht, requestCount_found env tg d h1 h2 h3⟩

/-- Witness for C5 at a 200 response with body `\x7b"ok":true\x7d`. -/
theorem c5_witness :
    runAuthBridge envOk = [Event.ready,
      Event.request "/api/v1/auth/telegram-webapp" "POST" "application/json"
        "include" (jsonEncodeAuthRequest "X"),
      Event.logSuccess (JsonValue.obj [("ok", JsonValue.bool true)])] ∧
    requestCount (runAuthBridge envOk) = 1 :=
  c5_2xx_logs_parsed_json envOk ⟨some "X"⟩ "X" 200 "\x7b\"ok\":true\x7d"
    (JsonValue.obj [("ok", JsonValue.bool true)]) rfl rfl (by decide) rfl rfl rfl

/-- Claim C6: the precondition steps happen in order: the bridge-presence
check first (absence short-circuits everything), then `ready()` whenever the
bridge is present — even when `initData` later turns out empty — then the
`initData` check; every network request sits strictly after the `ready`
event and only occurs once all three checks have passed. -/
theorem c6_ordered_steps (env : Env) :
    ((env.telegram = none ∨ env.telegram = some none) →
      runAuthBridge env = [Event.warn "Telegram WebApp API not found"]) ∧
    (∀ tg, env.telegram = some (some tg) →
      ∃ rest, runAuthBridge env = Event.ready :: rest) ∧
    (∀ e, e ∈ runAuthBridge env → e.isRequest = true →
      ∃ tg d rest, env.telegram = some (some tg) ∧ tg.initData = some d ∧
        d ≠ "" ∧ runAuthBridge env = Event.ready :: rest ∧ e ∈ rest) := by
  refine ⟨?_, ?_, ?_⟩
  · intro h
    rcases h with h | h <;> simp [runAuthBridge, h]
  · intro tg htel
    obtain ⟨b, hb⟩ := guard_never_errors tg.initData
    cases b with
    | true =>
      exact ⟨[Event.warn "No initData from Telegram"],
        by simp [runAuthBridge, htel, hb]⟩
    | false =>
      obtain ⟨d, hd, hne⟩ := (guard_false_iff tg.initData).mp hb
      exact ⟨_, runAuthBridge_found env tg d htel hd hne⟩
  · intro e he hreq
    rcases run_shape env with h | h | ⟨d, e', ⟨tg, htel, hd, hne⟩, h, hlog⟩
    · rw [h] at he
      simp at he
      subst he
      simp [Event.isRequest] at hreq
    · rw [h] at he
      simp at he
      rcases he with he | he <;> subst he <;> simp [Event.isRequest] at hreq
    · rw [h] at he
      simp at he
      rcases he with he | he | he
      · subst he; simp [Event.isRequest] at hreq
      · subst he
        refine ⟨tg, d, _, htel, hd, hne, h, ?_⟩
        exact List.mem_cons_self _ _
      · subst he
        rw [consoleLog_not_request _ hlog] at hreq
        exact absurd hreq (by simp)

/-- Witness for C6: with the bridge present and an empty `initData`, the
run still starts with the `ready` call. -/
theorem c6_witness :
    ∃ rest, runAuthBridge envEmptyInit = Event.ready :: rest :=
  (c6_ordered_steps envEmptyInit).2.1 ⟨some ""⟩ rfl

/-- Claim C7: invoking the script twice in the same environment issues two
independent requests; the second run's trace is identical to the first (the
script keeps no state between invocations). -/
theorem c7_two_loads_two_requests (env : Env) (tg : Bridge) (d : String)
    (h1 : env.telegram = some (some tg)) (h2 : tg.initData = some d)
    (h3 : d ≠ "") :
    runTwice env = runAuthBridge env ++ runAuthBridge env ∧
    requestCount (runAuthBridge env) = 1 ∧
    requestCount (runTwice env) = 2 := by
  refine ⟨rfl, requestCount_found env tg d h1 h2 h3, ?_⟩
  rw [runTwice, requestCount_append, requestCount_found env tg d h1 h2 h3]

/-- Witness for C7 at `initData = "X"`. -/
theorem c7_witness :
    runTwice envOk = runAuthBridge envOk ++ runAuthBridge envOk ∧
    requestCount (runAuthBridge envOk) = 1 ∧
    requestCount (runTwice envOk) = 2 :=
  c7_two_loads_two_requests envOk ⟨some "X"⟩ "X" rfl rfl (by decide)

/-- Claim C8: in every run the only side effects are at most one network
request, console output and the read-only readiness signal: no DOM
mutation, no write to the bridge object, no direct cookie access. -/
theorem c8_effect_frame (env : Env) :
    requestCount (runAuthBridge env) ≤ 1 ∧
    ∀ e, e ∈ runAuthBridge env → allowedEffect e = true := by
  rcases run_shape env with h | h | ⟨d, e', _, h, hlog⟩
  · rw [h]
    exact ⟨by decide, by decide⟩
  · rw [h]
    exact ⟨by decide, by decide⟩
  · rw [h]
    constructor
    · rw [requestCount_cons, requestCount_cons, requestCount_cons,
        consoleLog_not_request e' hlog]
      simp [Event.isRequest, requestCount]
    · intro e he
      simp at he
      rcases he with he | he | he
      · subst he; rfl
      · subst he; rfl
      · subst he; exact consoleLog_allowed _ hlog

/-- Witness for C8 on the happy-path environment. -/
theorem c8_witness :
    requestCount (runAuthBridge envOk) ≤ 1 ∧
    ∀ e, e ∈ runAuthBridge envOk → allowedEffect e = true :=
  c8_effect_frame envOk

/-- Claim C9: the `initData` guard never throws (short-circuiting protects
the `.length` access when `initData` is undefined); no run contains an
uncaught exception; an undefined `initData` takes the same warn-and-stop
path as the empty string; and the absence of either `window.Telegram` or
`Telegram.WebApp` takes the environment-missing path. -/
theorem c9_undefined_initdata_safe :
    (∀ v : Option String, ∃ b, evalInitDataGuard v = Except.ok b) ∧
    (∀ env msg, Event.uncaughtError msg ∉ runAuthBridge env) ∧
    (∀ env tg, env.telegram = some (some tg) → tg.initData = none →
      runAuthBridge env = [Event.ready, Event.warn "No initData from Telegram"] ∧
      requestCount (runAuthBridge env) = 0) ∧
    (∀ env, (env.telegram = none ∨ env.telegram = some none) →
      runAuthBridge env = [Event.warn "Telegram WebApp API not found"]) := by
  refine ⟨guard_never_errors, ?_, ?_, ?_⟩
  · intro env msg hmem
    rcases run_shape env with h | h | ⟨d, e', _, h, hlog⟩ <;> rw [h] at hmem
    · simp at hmem
    · simp at hmem
    · simp at hmem
      exact consoleLog_ne_uncaught e' hlog msg hmem.symm
  · intro env tg h1 h2
    have ht : runAuthBridge env =
        [Event.ready, Event.warn "No initData from Telegram"] := by
      simp [runAuthBridge, h1, h2, evalInitDataGuard, jsFalsyStr]
    exact ⟨ht, by rw [ht]; rfl⟩
  · intro env h
    rcases h with h | h <;> simp [runAuthBridge, h]

/-- Witness for C9 with `initData` undefined. -/
theorem c9_witness :
    runAuthBridge envUndefInit =
      [Event.ready, Event.warn "No initData from Telegram"] ∧
    requestCount (runAuthBridge envUndefInit) = 0 :=
  c9_undefined_initdata_safe.2.2.1 envUndefInit ⟨none⟩ rfl rfl

/-- Claim C10: on a 2xx response whose body is not valid JSON, the success
message is never logged; the parse failure reaches the same top-level catch
and is logged as an auth failure. -/
theorem c10_bad_json_logs_failure (env : Env) (tg : Bridge) (d : String)
    (status : Nat) (body errMsg : String)
    (h1 : env.telegram = some (some tg)) (h2 : tg.initData = some d)
    (h3 : d ≠ "") (h4 : env.fetchOutcome = FetchOutcome.response status body)
    (h5 : respOk status = true) (h6 : env.jsonParse body = Except.error errMsg) :
    runAuthBridge env = [Event.ready,
      Event.request "/api/v1/auth/telegram-webapp" "POST" "application/json"
        "include" (jsonEncodeAuthRequest d),
      Event.logError errMsg] ∧
    ∀ v, Event.logSuccess v ∉ runAuthBridge env := by
  have ht := runAuthBridge_found env tg d h1 h2 h3
  rw [h4] at ht
  simp only [handleOutcome, h5, if_true, h6] at ht
  refine ⟨ht, ?_⟩
  intro v hv
  rw [ht] at hv
  simp at hv

/-- Witness for C10 at a 200 response with a non-JSON body. -/
theorem c10_witness :
    runAuthBridge envBadJson = [Event.ready,
      Event.request "/api/v1/auth/telegram-webapp" "POST" "application/json"
        "include" (jsonEncodeAuthRequest "X"),
      Event.logError "Unexpected token in JSON: nonsense"] ∧
    ∀ v, Event.logSuccess v ∉ runAuthBridge envBadJson :=
  c10_bad_json_logs_failure envBadJson ⟨some "X"⟩ "X" 200 "nonsense"
    "Unexpected token in JSON: nonsense" rfl rfl (by decide) rfl rfl rfl
